import Mathlib

/-!
Verification development for the `json_rpc_v2` crate: a shallow embedding of
`src/protocol.rs` and `src/registry.rs` (the JSON-RPC 2.0 protocol model,
method registry and dispatch engine), with theorems settling the behavioural
claims about dispatch.

Modelling conventions:
* JSON values (`serde_json::Value`) are the inductive `Json` below.  JSON
  numbers are split into integer-valued numbers (`intNum`, carrying the
  integer) and non-integer numbers (`floatNum`); the dispatch code only ever
  distinguishes these two cases (an id must be an integer fitting `i64`).
* Raw request bytes are `List Nat` (byte values); the textual JSON grammar
  lives in the external `serde_json` crate, so the byte-level decoder is an
  explicit parameter `decode : List Nat → Option Json` of `Registry.call`,
  while the structural checks that the repository itself defines (the
  `Deserialize` derives of `Request` and `Id` and the hand-written
  `V2_0::deserialize`) are the executable functions `parseRequest`,
  `parseBatch` and `Id.fromJson`.  `serde_json::from_slice::<T>` is
  `decode bytes >>= parse`.
* Handlers (`Method = fn(Value) -> Future<Result<Value, Error>>`) become pure
  functions `Json → Except Error Json`; the asynchronous execution of
  `call_batch` is modelled deterministically, with the completions of the
  spawned tasks delivered in submission order (every spawned task sends
  exactly one message on the channel, so the coordinator loop receives
  exactly `wait` responses; only their order is scheduler-dependent, and no
  claim below depends on that order).
* `serde_json::to_value` on `Response`/`Error` produces objects whose keys
  are sorted (serde_json's `Map` is a `BTreeMap`); `Response.toJson` and
  `Error.toJson` list the fields in that sorted order, skipping `None`
  fields exactly where the source has `skip_serializing_if = "Option::is_none"`.
-/

namespace JsonRpcV2

/-- Model of `serde_json::Value`, with numbers split by integrality (see the header). -/
inductive Json where
  | null : Json
  | bool (b : Bool) : Json
  | intNum (n : Int) : Json
  | floatNum : Json
  | str (s : String) : Json
  | arr (elems : List Json) : Json
  | obj (fields : List (String × Json)) : Json

/-- Field lookup in a JSON object / generic association list (first match). -/
def assocLookup {α : Type} : List (String × α) → String → Option α
  | [], _ => none
  | (k, v) :: rest, key => if k = key then some v else assocLookup rest key

/-- Field access on a serialized JSON object (used only to state properties
of serialized responses, e.g. that they carry the `"jsonrpc"` tag). -/
def Json.getField : Json → String → Option Json
  | .obj fields, key => assocLookup fields key
  | _, _ => none

/-- The `protocol.rs` `Id`: untagged enum with variants `Number(i64)`, `String`,
`Null` and the `#[default]` unit variant `Notification`. -/
inductive Id where
  | Number (n : Int) : Id
  | String (s : String) : Id
  | Null : Id
  | Notification : Id
deriving DecidableEq

/-- Source `Id::is_notification`. -/
def Id.is_notification : Id → Bool
  | .Notification => true
  | _ => false

/-- Untagged deserialization of `Id` from a JSON value: the variants are
tried in declaration order, so an integer number fitting `i64` gives
`Number`, a string gives `String`, JSON `null` gives `Null` (the unit
variant `Notification`, which would also accept `null`, is shadowed by
`Null`), and everything else fails. -/
def Id.fromJson : Json → Option Id
  | .intNum n => if -(2 ^ 63) ≤ n ∧ n < 2 ^ 63 then some (.Number n) else none
  | .str s => some (.String s)
  | .null => some .Null
  | _ => none

/-- Untagged serialization of `Id` (unit variants serialize as `null`). -/
def Id.toJson : Id → Json
  | .Number n => .intNum n
  | .String s => .str s
  | .Null => .null
  | .Notification => .null

/-- The unit version-tag struct `V2_0` of `protocol.rs`. -/
inductive V2_0 where
  | mk : V2_0

/-- The `protocol.rs` `Error { code: i32, message, data: Option<Value> }` struct. -/
structure Error where
  code : Int
  message : String
  data : Option Json

/-- Source `Error::parse_error`. -/
def Error.parse_error : Error := ⟨-32700, "Parse error", none⟩

/-- Source `Error::invalid_request`. -/
def Error.invalid_request : Error := ⟨-32600, "Invalid Request", none⟩

/-- Source `Error::method_not_found`. -/
def Error.method_not_found : Error := ⟨-32601, "Method not found", none⟩

/-- Source `Error::invalid_params`. -/
def Error.invalid_params : Error := ⟨-32602, "Invalid params", none⟩

/-- Source `Error::internal_error`. -/
def Error.internal_error : Error := ⟨-32603, "Internal error", none⟩

/-- Source `Error::server_error`. -/
def Error.server_error : Error := ⟨-32000, "Server error", none⟩

/-- Serialization `serde_json::to_value` on `Error`: keys in sorted order
(`code` < `data` < `message`), `data` skipped when `None`. -/
def Error.toJson (e : Error) : Json :=
  .obj ([("code", .intNum e.code)]
    ++ (match e.data with | some d => [("data", d)] | none => [])
    ++ [("message", .str e.message)])

/-- The `protocol.rs` `Request` struct (the `jsonrpc: V2_0` field carries no data and
is enforced at parse time, so it is kept as the unit tag). -/
structure Request where
  jsonrpc : V2_0
  method : String
  params : Json
  id : Id

/-- The derived `Deserialize` of `Request` on a JSON value: the input must
be an object; `jsonrpc` must be present, a string, and equal to `"2.0"`
(`V2_0::deserialize`); `method` must be present and a string; `params` must
be present (any JSON value — the field has no `#[serde(default)]`); `id` is
optional with default `Id::Notification` (`#[serde(default)]`), and when
present must deserialize as an `Id`; unknown fields are ignored. -/
def parseRequest (j : Json) : Option Request :=
  match j with
  | .obj fields =>
    match assocLookup fields "jsonrpc", assocLookup fields "method",
        assocLookup fields "params" with
    | some (.str v), some (.str m), some p =>
      if v = "2.0" then
        match assocLookup fields "id" with
        | none => some ⟨.mk, m, p, .Notification⟩
        | some ij => (Id.fromJson ij).map fun i => ⟨.mk, m, p, i⟩
      else none
    | _, _, _ => none
  | _ => none

/-- Sequence deserialization: every element must parse, in order, failing
fast on the first bad element. -/
def parseRequestList : List Json → Option (List Request)
  | [] => some []
  | j :: rest =>
    match parseRequest j, parseRequestList rest with
    | some r, some rs => some (r :: rs)
    | _, _ => none

/-- Parsing `from_slice::<Vec<Request>>` after JSON decoding: the value must be an
array and every member must parse as a `Request` (one malformed member
fails the whole batch). -/
def parseBatch (j : Json) : Option (List Request) :=
  match j with
  | .arr elems => parseRequestList elems
  | _ => none

/-- The `protocol.rs` `Response` struct. -/
structure Response where
  jsonrpc : V2_0
  result : Option Json
  error : Option Error
  id : Id

/-- Source `Response::ok` (the `debug_assert!(!id.is_notification())` precondition
is discharged as a theorem about every construction site reachable from
dispatch, see the invariant claims below). -/
def Response.ok (id : Id) (result : Json) : Response :=
  ⟨.mk, some result, none, id⟩

/-- Source `Response::error` (same precondition remark as `Response.ok`; named
`mkError` because Lean reserves `Response.error` for the field projection). -/
def Response.mkError (id : Id) (error : Error) : Response :=
  ⟨.mk, none, some error, id⟩

/-- Serialization `serde_json::to_value` on `Response`: keys in sorted order
(`error` < `id` < `jsonrpc` < `result`), `result`/`error` skipped when
`None`. -/
def Response.toJson (r : Response) : Json :=
  .obj ((match r.error with | some e => [("error", e.toJson)] | none => [])
    ++ [("id", r.id.toJson), ("jsonrpc", .str "2.0")]
    ++ (match r.result with | some v => [("result", v)] | none => []))

/-- The handler contract `Method`: `fn(Value) -> Future<Result<Value, Error>>`,
modelled as a pure total function. -/
def Method : Type := Json → Except Error Json

/-- The `registry.rs` `Registry { methods: HashMap<&str, Method> }`, modelled as
an association list without duplicate keys (insert replaces). -/
structure Registry where
  methods : List (String × Method)

/-- Source `Registry::new`. -/
def Registry.new : Registry := ⟨[]⟩

/-- Source `Registry::register_method`: `HashMap::insert`, i.e. the new binding
replaces any previous binding of the same name. -/
def Registry.register_method (r : Registry) (name : String) (m : Method) :
    Registry :=
  ⟨(name, m) :: r.methods.filter (fun p => p.1 ≠ name)⟩

/-- Source `Registry::get_method` (the `None` branch only logs). -/
def Registry.get_method (r : Registry) (name : String) : Option Method :=
  assocLookup r.methods name

/-- Source `Registry::call_one`: the source matches the handler outcome with
guards `Ok(result) if !req.id.is_notification()` /
`Err(err) if !req.id.is_notification()` / `_ => None`, and for an unknown
method `None if !req.id.is_notification()` / `None => None`. -/
def Registry.call_one (r : Registry) (req : Request) : Option Response :=
  match r.get_method req.method with
  | some m =>
    match m req.params with
    | .ok result =>
      if !req.id.is_notification then some (Response.ok req.id result)
      else none
    | .error err =>
      if !req.id.is_notification then some (Response.mkError req.id err)
      else none
  | none =>
    if !req.id.is_notification then
      some (Response.mkError req.id Error.method_not_found)
    else none

/-- Source `Registry::call_batch`, deterministic model.  The source loop pushes a
`method_not_found` response immediately for every non-notification entry
whose method is unknown, spawns an awaited task for every non-notification
entry whose method is known (its completion is sent to the channel and
received by the trailing `while wait > 0` loop, which pushes it after all
the immediate pushes), and spawns a fire-and-forget task (result discarded)
for every notification entry with a known method; notification entries with
unknown methods produce nothing.  Completions are modelled as arriving in
submission order; every spawned awaited task sends exactly one message, so
the receive loop obtains exactly `wait` responses. -/
def Registry.call_batch (r : Registry) (batch_req : List Request) :
    List Response :=
  (batch_req.filterMap fun req =>
    match r.get_method req.method with
    | none =>
      if !req.id.is_notification then
        some (Response.mkError req.id Error.method_not_found)
      else none
    | some _ => none) ++
  (batch_req.filterMap fun req =>
    match r.get_method req.method with
    | some m =>
      if !req.id.is_notification then
        some (match m req.params with
          | .ok result => Response.ok req.id result
          | .error err => Response.mkError req.id err)
      else none
    | none => none)

/-- The free function `invalid_request()` of `registry.rs`. -/
def invalid_request : Json :=
  (Response.mkError Id.Null Error.invalid_request).toJson

/-- The free function `parse_error()` of `registry.rs`. -/
def parse_error : Json :=
  (Response.mkError Id.Null Error.parse_error).toJson

/-- Source `Registry::call`: classify on the first byte of the raw input
(`[b'{', ..]` / `[b'[', ..]` / anything else, the empty slice included,
falls to the `_` arm), then decode + structurally parse, dispatch, and
serialize; an empty batch response list becomes `None`. -/
def Registry.call (r : Registry) (decode : List Nat → Option Json)
    (req : List Nat) : Option Json :=
  match req with
  | 123 :: _ =>
    match decode req >>= parseRequest with
    | some request => (r.call_one request).map Response.toJson
    | none => some parse_error
  | 91 :: _ =>
    match decode req >>= parseBatch with
    | some batch =>
      let response := r.call_batch batch
      if response.isEmpty then none
      else some (.arr (response.map Response.toJson))
    | none => some parse_error
  | _ => some invalid_request

/-- Refinement reference for the batch claim, following the spec's single
dispatch decision table for a non-notification entry: method not found ⇒
`MethodNotFound` error response; handler success ⇒ ok response; handler
failure ⇒ error response carrying the handler's error — always with the
entry's id. -/
def specEntryResponse (r : Registry) (q : Request) : Response :=
  match r.get_method q.method with
  | none => Response.mkError q.id Error.method_not_found
  | some m =>
    match m q.params with
    | .ok result => Response.ok q.id result
    | .error err => Response.mkError q.id err

/-! ## Helper lemmas -/

/-- Looking up a key other than the removed one ignores the removal. -/
theorem assocLookup_filter_ne {α : Type} (l : List (String × α))
    (name n : String) (h : n ≠ name) :
    assocLookup (l.filter fun p => p.1 ≠ name) n = assocLookup l n := by
  induction l with
  | nil => rfl
  | cons p rest ih =>
    by_cases hp : p.1 = name
    · have hpn : ¬p.1 = n := by rw [hp]; exact fun e => h e.symm
      rw [List.filter_cons_of_neg (by simp [hp])]
      rw [ih]
      simp [assocLookup, hpn]
    · rw [List.filter_cons_of_pos (by simp [hp])]
      simp only [assocLookup]
      by_cases hq : p.1 = n
      · rw [if_pos hq, if_pos hq]
      · rw [if_neg hq, if_neg hq]; exact ih

/-- The decision-table response always carries the entry's id. -/
theorem specEntryResponse_id (r : Registry) (q : Request) :
    (specEntryResponse r q).id = q.id := by
  unfold specEntryResponse
  rcases r.get_method q.method with _ | m
  · rfl
  · rcases hm : m q.params with e | v <;> simp [hm, Response.ok, Response.mkError]

/-- The batch output is a permutation of the decision-table responses of the
non-notification entries (immediate method-not-found pushes come first in
the model, awaited handler completions after; the permutation absorbs the
reordering). -/
theorem call_batch_perm (r : Registry) (batch : List Request) :
    (r.call_batch batch).Perm
      ((batch.filter fun q => !q.id.is_notification).map (specEntryResponse r)) := by
  induction batch with
  | nil => simp [Registry.call_batch]
  | cons q rest ih =>
    rcases hn : q.id.is_notification with _ | _
    · rcases hm : r.get_method q.method with _ | m
      · simp only [Registry.call_batch, List.filterMap_cons, List.filter_cons,
          hm, hn, Bool.not_false, List.map_cons, if_true, cond_true]
        simp only [specEntryResponse, hm]
        exact (List.Perm.cons _ ih)
      · simp only [Registry.call_batch, List.filterMap_cons, List.filter_cons,
          hm, hn, Bool.not_false, List.map_cons, if_true, cond_true]
        simp only [specEntryResponse, hm]
        exact List.Perm.trans List.perm_middle (List.Perm.cons _ ih)
    · rcases hm : r.get_method q.method with _ | m <;>
      · simp only [Registry.call_batch, List.filterMap_cons, List.filter_cons,
          hm, hn, Bool.not_true, if_false, cond_false]
        exact ih

/-- Membership in the batch output, characterized entry-wise. -/
theorem mem_call_batch_iff (r : Registry) (batch : List Request)
    (resp : Response) :
    resp ∈ r.call_batch batch ↔
      ∃ q ∈ batch, q.id.is_notification = false ∧ resp = specEntryResponse r q := by
  constructor
  · intro h
    have h2 := (call_batch_perm r batch).mem_iff.mp h
    rcases List.mem_map.mp h2 with ⟨q, hq, rfl⟩
    rcases List.mem_filter.mp hq with ⟨hqb, hnot⟩
    exact ⟨q, hqb, by simpa using hnot, rfl⟩
  · rintro ⟨q, hq, hn, rfl⟩
    exact (call_batch_perm r batch).mem_iff.mpr
      (List.mem_map.mpr ⟨q, List.mem_filter.mpr ⟨hq, by simp [hn]⟩, rfl⟩)

/-- Any input whose first byte is neither `'{'` (123) nor `'['` (91) — the
empty input included — takes the catch-all arm of `Registry::call`. -/
theorem call_catchall (r : Registry) (decode : List Nat → Option Json)
    (bytes : List Nat) (h1 : bytes.head? ≠ some 123)
    (h2 : bytes.head? ≠ some 91) :
    r.call decode bytes = some invalid_request := by
  rcases bytes with _ | ⟨b, rest⟩
  · rfl
  · have hb1 : b ≠ 123 := fun e => h1 (by simp [e])
    have hb2 : b ≠ 91 := fun e => h2 (by simp [e])
    unfold Registry.call
    split
    · next heq => exact absurd (List.cons.injEq .. ▸ heq).1 hb1
    · next heq => exact absurd (List.cons.injEq .. ▸ heq).1 hb2
    · rfl

/-- Unfolding `Registry::call` on a payload starting with `'{'` (byte 123). -/
theorem call_single_eq (r : Registry) (decode : List Nat → Option Json)
    (rest : List Nat) :
    r.call decode (123 :: rest)
      = match decode (123 :: rest) >>= parseRequest with
        | some request => (r.call_one request).map Response.toJson
        | none => some parse_error := rfl

/-- Unfolding `Registry::call` on a payload starting with `'['` (byte 91). -/
theorem call_array_eq (r : Registry) (decode : List Nat → Option Json)
    (rest : List Nat) :
    r.call decode (91 :: rest)
      = match decode (91 :: rest) >>= parseBatch with
        | some batch =>
          if (r.call_batch batch).isEmpty then none
          else some (.arr ((r.call_batch batch).map Response.toJson))
        | none => some parse_error := rfl

/-- Every serialized response carries the `"jsonrpc": "2.0"` member. -/
theorem toJson_jsonrpc_field (resp : Response) :
    resp.toJson.getField "jsonrpc" = some (.str "2.0") := by
  rcases resp with ⟨v, res, err, i⟩
  rcases err with _ | e <;> rcases res with _ | v0 <;>
    simp [Response.toJson, Json.getField, assocLookup]

/-- A single unparsable element fails the whole element list. -/
theorem parseRequestList_member_fail (elems : List Json) (j : Json)
    (hj : j ∈ elems) (hfail : parseRequest j = none) :
    parseRequestList elems = none := by
  induction elems with
  | nil => cases hj
  | cons a rest ih =>
    rcases List.mem_cons.mp hj with rfl | hmem
    · simp [parseRequestList, hfail]
    · rcases ha : parseRequest a with _ | req
      · simp [parseRequestList, ha]
      · simp [parseRequestList, ha, ih hmem]

/-- A single unparsable member makes the whole batch parse fail. -/
theorem parseBatch_member_fail (elems : List Json) (j : Json)
    (hj : j ∈ elems) (hfail : parseRequest j = none) :
    parseBatch (.arr elems) = none := by
  unfold parseBatch
  exact parseRequestList_member_fail elems j hj hfail

/-- Successful single parse: dispatch defers to `call_one`. -/
theorem call_single_some (r : Registry) (decode : List Nat → Option Json)
    (rest : List Nat) (request : Request)
    (hp : decode (123 :: rest) >>= parseRequest = some request) :
    r.call decode (123 :: rest) = (r.call_one request).map Response.toJson := by
  rw [call_single_eq r decode rest, hp]

/-- Failed single parse: dispatch returns the ParseError response. -/
theorem call_single_none (r : Registry) (decode : List Nat → Option Json)
    (rest : List Nat) (hp : decode (123 :: rest) >>= parseRequest = none) :
    r.call decode (123 :: rest) = some parse_error := by
  rw [call_single_eq r decode rest, hp]

/-- Successful batch parse: dispatch defers to `call_batch`, with the
empty-output-to-absence conversion. -/
theorem call_array_some (r : Registry) (decode : List Nat → Option Json)
    (rest : List Nat) (batch : List Request)
    (hp : decode (91 :: rest) >>= parseBatch = some batch) :
    r.call decode (91 :: rest)
      = if (r.call_batch batch).isEmpty then none
        else some (.arr ((r.call_batch batch).map Response.toJson)) := by
  rw [call_array_eq r decode rest, hp]

/-- Failed batch parse: dispatch returns the ParseError response. -/
theorem call_array_none (r : Registry) (decode : List Nat → Option Json)
    (rest : List Nat) (hp : decode (91 :: rest) >>= parseBatch = none) :
    r.call decode (91 :: rest) = some parse_error := by
  rw [call_array_eq r decode rest, hp]

/-- Entry-wise characterization of a successful `call_one`. -/
theorem call_one_some_iff (r : Registry) (req : Request) (resp : Response) :
    r.call_one req = some resp ↔
      req.id.is_notification = false ∧ resp = specEntryResponse r req := by
  unfold Registry.call_one specEntryResponse
  rcases hm : r.get_method req.method with _ | m
  · by_cases hn : req.id.is_notification <;> simp [hn, eq_comm]
  · rcases hv : m req.params with e | v <;>
      by_cases hn : req.id.is_notification <;> simp [hn, hv, eq_comm]

/-- The decision-table response has exactly one of `result`/`error`. -/
theorem specEntryResponse_exclusive (r : Registry) (q : Request) :
    ((specEntryResponse r q).result.isSome = true
      ∧ (specEntryResponse r q).error = none)
    ∨ ((specEntryResponse r q).result = none
      ∧ (specEntryResponse r q).error.isSome = true) := by
  unfold specEntryResponse
  rcases r.get_method q.method with _ | m
  · right; exact ⟨rfl, rfl⟩
  · rcases hv : m q.params with e | v <;>
      simp [hv, Response.ok, Response.mkError]

/-! ## Claim theorems -/

/-- C1: a request whose id is the notification marker never yields a
correlated response, whether dispatched singly or as a batch entry, for
registered and unregistered methods alike and whatever the handler
returns: `call_one` returns `none` for it, and every response in a batch
output carries the id of a non-notification entry. -/
theorem notification_requests_never_answered :
    (∀ (r : Registry) (req : Request), req.id.is_notification = true →
      r.call_one req = none)
    ∧ ∀ (r : Registry) (batch : List Request) (resp : Response),
      resp ∈ r.call_batch batch →
      ∃ q ∈ batch, q.id.is_notification = false ∧ resp.id = q.id := by
  constructor
  · intro r req hn
    unfold Registry.call_one
    rcases hm : r.get_method req.method with _ | m
    · simp [hn]
    · rcases hv : m req.params with e | v <;> simp [hn, hv]
  · intro r batch resp h
    rcases (mem_call_batch_iff r batch resp).mp h with ⟨q, hq, hn, rfl⟩
    exact ⟨q, hq, hn, specEntryResponse_id r q⟩

/-- Witness for C1 at a concrete notification request. -/
theorem notification_requests_never_answered_witness :
    Registry.new.call_one ⟨.mk, "sum", .null, .Notification⟩ = none :=
  notification_requests_never_answered.1 Registry.new
    ⟨.mk, "sum", .null, .Notification⟩ rfl

/-- C2: single non-notification dispatch: an unregistered method yields the
method-not-found error response (code -32601, message "Method not found")
with the request's id; a registered handler's success yields the ok
response carrying the handler's result and the request's id; a handler's
failure yields an error response carrying exactly the handler's error and
the request's id. -/
theorem single_dispatch_outcomes (r : Registry) (req : Request)
    (hn : req.id.is_notification = false) :
    (r.get_method req.method = none →
      r.call_one req = some (Response.mkError req.id Error.method_not_found)
        ∧ Error.method_not_found.code = -32601
        ∧ Error.method_not_found.message = "Method not found")
    ∧ ∀ m : Method, r.get_method req.method = some m →
        (∀ v, m req.params = .ok v →
          r.call_one req = some (Response.ok req.id v))
        ∧ ∀ e, m req.params = .error e →
          r.call_one req = some (Response.mkError req.id e) := by
  refine ⟨fun hm => ⟨?_, rfl, rfl⟩, fun m hm => ⟨fun v hv => ?_, fun e he => ?_⟩⟩
  · unfold Registry.call_one; simp [hm, hn]
  · unfold Registry.call_one; simp [hm, hv, hn]
  · unfold Registry.call_one; simp [hm, he, hn]

/-- Witness for C2: the unregistered "sum1" call of the test suite. -/
theorem single_dispatch_outcomes_witness :
    Registry.new.call_one ⟨.mk, "sum1", .arr [.intNum 3, .intNum 4], .Number 1⟩
      = some (Response.mkError (.Number 1) Error.method_not_found) :=
  ((single_dispatch_outcomes Registry.new
    ⟨.mk, "sum1", .arr [.intNum 3, .intNum 4], .Number 1⟩ rfl).1 rfl).1

/-- C8: registering twice under the same name raises no error (the model is
a total function) and the second handler wins on a subsequent lookup;
lookup of any other name is unaffected by the registrations, and lookup
itself takes the registry by shared reference and returns only the
handler, so it cannot modify the registry. -/
theorem register_last_write_wins (r : Registry) (name : String)
    (h1 h2 : Method) :
    ((r.register_method name h1).register_method name h2).get_method name
        = some h2
    ∧ ∀ n, n ≠ name →
        ((r.register_method name h1).register_method name h2).get_method n
          = r.get_method n := by
  constructor
  · simp [Registry.get_method, Registry.register_method, assocLookup]
  · intro n hne
    simp only [Registry.get_method, Registry.register_method, assocLookup]
    rw [if_neg fun e => hne e.symm]
    rw [assocLookup_filter_ne _ name n hne]
    simp only [assocLookup]
    rw [if_neg fun e => hne e.symm]
    rw [assocLookup_filter_ne _ name n hne]

/-- Witness for C8 at two concrete handlers and a distinct name. -/
theorem register_last_write_wins_witness :
    ((Registry.new.register_method "m" fun _ => Except.ok Json.null
      ).register_method "m" fun _ => Except.ok (Json.intNum 7)).get_method "m"
      = some (fun _ => Except.ok (Json.intNum 7))
    ∧ ((Registry.new.register_method "m" fun _ => Except.ok Json.null
      ).register_method "m" fun _ => Except.ok (Json.intNum 7)).get_method
        "other" = none :=
  ⟨(register_last_write_wins Registry.new "m" _ _).1,
   (register_last_write_wins Registry.new "m" _ _).2 "other" (by decide)⟩

/-- C9: the empty byte payload gets a reply — the InvalidRequest error
response with code -32600 and explicit-null id — not absence and not a
ParseError, through the same catch-all classification arm as any input
whose first byte is neither `'{'` nor `'['`. -/
theorem empty_input_invalid_request (r : Registry)
    (decode : List Nat → Option Json) :
    r.call decode [] = some invalid_request
    ∧ invalid_request
        = .obj [("error", .obj [("code", .intNum (-32600)),
            ("message", .str "Invalid Request")]),
            ("id", .null), ("jsonrpc", .str "2.0")]
    ∧ ∀ bytes : List Nat, bytes.head? ≠ some 123 → bytes.head? ≠ some 91 →
        r.call decode bytes = some invalid_request :=
  ⟨rfl, rfl, fun bytes h1 h2 => call_catchall r decode bytes h1 h2⟩

/-- Witness for C9: the empty input and a one-byte non-JSON input. -/
theorem empty_input_invalid_request_witness :
    Registry.new.call (fun _ => none) [] = some invalid_request
    ∧ Registry.new.call (fun _ => none) [104] = some invalid_request :=
  ⟨(empty_input_invalid_request Registry.new fun _ => none).1,
   (empty_input_invalid_request Registry.new fun _ => none).2.2 [104]
     (by decide) (by decide)⟩

/-- C3: for a successfully parsed batch, the output collection has exactly
one response per non-notification entry — the decision-table response, a
method-not-found error for unregistered methods included — each embedding
its originating entry's id; and when the non-notification count is zero
the dispatch reply is absent (`none`), not an empty array, otherwise it is
the serialized array of those responses. -/
theorem batch_output_correlation (r : Registry)
    (decode : List Nat → Option Json) (rest : List Nat)
    (batch : List Request)
    (hp : decode (91 :: rest) >>= parseBatch = some batch) :
    (r.call_batch batch).Perm
        ((batch.filter fun q => !q.id.is_notification).map (specEntryResponse r))
    ∧ (∀ q : Request, (specEntryResponse r q).id = q.id)
    ∧ (r.call_batch batch).length
        = (batch.filter fun q => !q.id.is_notification).length
    ∧ ((batch.filter fun q => !q.id.is_notification) = [] →
        r.call decode (91 :: rest) = none)
    ∧ ((batch.filter fun q => !q.id.is_notification) ≠ [] →
        r.call decode (91 :: rest)
          = some (.arr ((r.call_batch batch).map Response.toJson))) := by
  have hperm := call_batch_perm r batch
  have hlen : (r.call_batch batch).length
      = (batch.filter fun q => !q.id.is_notification).length := by
    have := hperm.length_eq
    rwa [List.length_map] at this
  refine ⟨hperm, fun q => specEntryResponse_id r q, hlen, ?_, ?_⟩
  · intro hempty
    have h0 : r.call_batch batch = [] :=
      List.length_eq_zero.mp (by rw [hlen, hempty]; rfl)
    rw [call_array_some r decode rest batch hp, h0]
    rfl
  · intro hne
    rcases hcb : r.call_batch batch with _ | ⟨x, xs⟩
    · exact absurd (List.length_eq_zero.mp (by rw [← hlen, hcb]; rfl)) hne
    · rw [call_array_some r decode rest batch hp, hcb]
      rfl

/-- Witness for C3: a one-entry batch against the empty registry yields
exactly the method-not-found response array. -/
theorem batch_output_correlation_witness :
    Registry.new.call
      (fun _ => some (.arr [.obj [("jsonrpc", .str "2.0"),
        ("method", .str "sum"), ("params", .arr []), ("id", .intNum 1)]]))
      [91]
      = some (.arr [(Response.mkError (.Number 1)
          Error.method_not_found).toJson]) :=
  ((batch_output_correlation Registry.new
    (fun _ => some (.arr [.obj [("jsonrpc", .str "2.0"),
      ("method", .str "sum"), ("params", .arr []), ("id", .intNum 1)]]))
    [] [⟨.mk, "sum", .arr [], .Number 1⟩] rfl).2.2.2.2
    (fun hx => List.noConfusion hx)).trans rfl

/-- C4: an input whose first byte is `'{'` or `'['` but whose structural
parse fails yields exactly the single ParseError response
`{"error":{"code":-32700,"message":"Parse error"},"id":null,"jsonrpc":"2.0"}`;
a version tag other than "2.0" and an id that is not an integer, string or
null are such structural failures, and one malformed batch member rejects
the whole payload. -/
theorem parse_failure_uniform_response :
    (∀ (r : Registry) (decode : List Nat → Option Json) (rest : List Nat),
      decode (123 :: rest) >>= parseRequest = none →
      r.call decode (123 :: rest) = some parse_error)
    ∧ (∀ (r : Registry) (decode : List Nat → Option Json) (rest : List Nat),
      decode (91 :: rest) >>= parseBatch = none →
      r.call decode (91 :: rest) = some parse_error)
    ∧ parse_error = .obj [("error", .obj [("code", .intNum (-32700)),
        ("message", .str "Parse error")]), ("id", .null),
        ("jsonrpc", .str "2.0")]
    ∧ (∀ (s m : String) (p : Json), s ≠ "2.0" →
        parseRequest (.obj [("jsonrpc", .str s), ("method", .str m),
          ("params", p)]) = none)
    ∧ (∀ (m : String) (p ij : Json), Id.fromJson ij = none →
        parseRequest (.obj [("jsonrpc", .str "2.0"), ("method", .str m),
          ("params", p), ("id", ij)]) = none)
    ∧ (∀ j : Json, (∀ n, j ≠ .intNum n) → (∀ s, j ≠ .str s) → j ≠ .null →
        Id.fromJson j = none)
    ∧ ∀ (elems : List Json) (j : Json), j ∈ elems → parseRequest j = none →
        parseBatch (.arr elems) = none := by
  refine ⟨fun r decode rest hp => call_single_none r decode rest hp,
    fun r decode rest hp => call_array_none r decode rest hp, rfl,
    fun s m p hs => ?_, fun m p ij hid => ?_, fun j h1 h2 h3 => ?_,
    fun elems j hj hfail => parseBatch_member_fail elems j hj hfail⟩
  · simp [parseRequest, assocLookup, hs]
  · simp [parseRequest, assocLookup, hid]
  · cases j with
    | intNum n => exact absurd rfl (h1 n)
    | str s => exact absurd rfl (h2 s)
    | null => exact absurd rfl h3
    | _ => rfl

/-- Witness for C4: a decoder failure under each of the two shapes. -/
theorem parse_failure_uniform_response_witness :
    Registry.new.call (fun _ => none) [123] = some parse_error
    ∧ Registry.new.call (fun _ => none) [91] = some parse_error :=
  ⟨parse_failure_uniform_response.1 Registry.new (fun _ => none) [] rfl,
   parse_failure_uniform_response.2.1 Registry.new (fun _ => none) [] rfl⟩

/-- Counterexample to C5: the input bytes `[32, 123]` — a space and then
`'{'` — have `'{'` as first byte of the *trimmed* input, yet dispatch
answers with the InvalidRequest response without parsing, even with a
decoder that accepts the payload (as `serde_json::from_slice`, which skips
leading whitespace, would): the classification match looks at the raw
first byte, so leading whitespace does cause an InvalidRequest response,
contradicting the claim. -/
theorem leading_whitespace_counterexample :
    Registry.new.call
      (fun _ => some (.obj [("jsonrpc", .str "2.0"), ("method", .str "sum"),
        ("params", .arr [.intNum 3, .intNum 4]), ("id", .intNum 1)]))
      [32, 123] = some invalid_request := rfl

/-- C5 as amended: classification looks at the first byte of the raw,
untrimmed input, with no separate emptiness check: a payload whose first
byte is `'{'` is attempted as a single request, a payload whose first byte
is `'['` is attempted as a batch, and only inputs whose raw first byte is
neither `'{'` nor `'['` — those with leading whitespace before `'{'`
included — yield the InvalidRequest error response with explicit-null id,
skipping the parse. -/
theorem classification_first_byte_raw :
    (∀ (r : Registry) (decode : List Nat → Option Json) (bytes : List Nat),
      bytes.head? ≠ some 123 → bytes.head? ≠ some 91 →
      r.call decode bytes = some invalid_request)
    ∧ (∀ (r : Registry) (decode : List Nat → Option Json) (rest : List Nat)
        (request : Request),
      decode (123 :: rest) >>= parseRequest = some request →
      r.call decode (123 :: rest) = (r.call_one request).map Response.toJson)
    ∧ ∀ (r : Registry) (decode : List Nat → Option Json) (rest : List Nat)
        (batch : List Request),
      decode (91 :: rest) >>= parseBatch = some batch →
      r.call decode (91 :: rest)
        = if (r.call_batch batch).isEmpty then none
          else some (.arr ((r.call_batch batch).map Response.toJson)) :=
  ⟨fun r decode bytes h1 h2 => call_catchall r decode bytes h1 h2,
   fun r decode rest request hp => call_single_some r decode rest request hp,
   fun r decode rest batch hp => call_array_some r decode rest batch hp⟩

/-- Witness for the amended C5: a newline-first payload is rejected as
InvalidRequest, a `'{'`-first payload reaches `call_one`, and a `'['`-first
payload reaches `call_batch` (here an empty batch, so the reply is
absent). -/
theorem classification_first_byte_raw_witness :
    Registry.new.call (fun _ => none) [10] = some invalid_request
    ∧ Registry.new.call
        (fun _ => some (.obj [("jsonrpc", .str "2.0"), ("method", .str "x"),
          ("params", .null), ("id", .intNum 1)]))
        [123]
      = (Registry.new.call_one ⟨.mk, "x", .null, .Number 1⟩).map
          Response.toJson
    ∧ Registry.new.call (fun _ => some (.arr [])) [91] = none :=
  ⟨classification_first_byte_raw.1 Registry.new (fun _ => none) [10]
     (by decide) (by decide),
   classification_first_byte_raw.2.1 Registry.new
     (fun _ => some (.obj [("jsonrpc", .str "2.0"), ("method", .str "x"),
       ("params", .null), ("id", .intNum 1)]))
     [] ⟨.mk, "x", .null, .Number 1⟩ rfl,
   (classification_first_byte_raw.2.2 Registry.new
     (fun _ => some (.arr [])) [] [] rfl).trans rfl⟩

/-- C6 (code bug): the wire payload `{"jsonrpc":"2.0","method":"sum","id":1}`
— `params` absent — does not parse: the `params` field of `Request` has no
serde default, so the derive rejects a missing `params`, and dispatch
returns the ParseError response even with "sum" registered, where the
claim (and the JSON-RPC 2.0 specification the crate is named after) says
the request parses and is dispatched to the handler. -/
theorem absent_params_parse_failure :
    parseRequest (.obj [("jsonrpc", .str "2.0"), ("method", .str "sum"),
      ("id", .intNum 1)]) = none
    ∧ (Registry.new.register_method "sum" fun _ =>
        Except.ok (Json.intNum 7)).call
        (fun _ => some (.obj [("jsonrpc", .str "2.0"),
          ("method", .str "sum"), ("id", .intNum 1)]))
        [123] = some parse_error :=
  ⟨rfl, rfl⟩

/-- C7: every response dispatch constructs — through `call_one` or
`call_batch` — has exactly one of `result`/`error` present, serializes
with the `"jsonrpc":"2.0"` tag, and never carries the notification marker
as id; as the constructors copy their id argument verbatim, the
debug-assert precondition of `Response::ok`/`Response::error` holds at
every construction site reachable from dispatch. -/
theorem response_invariant :
    (∀ (r : Registry) (req : Request) (resp : Response),
      r.call_one req = some resp →
      ((resp.result.isSome = true ∧ resp.error = none)
        ∨ (resp.result = none ∧ resp.error.isSome = true))
      ∧ resp.id.is_notification = false
      ∧ resp.toJson.getField "jsonrpc" = some (.str "2.0"))
    ∧ ∀ (r : Registry) (batch : List Request) (resp : Response),
      resp ∈ r.call_batch batch →
      ((resp.result.isSome = true ∧ resp.error = none)
        ∨ (resp.result = none ∧ resp.error.isSome = true))
      ∧ resp.id.is_notification = false
      ∧ resp.toJson.getField "jsonrpc" = some (.str "2.0") := by
  constructor
  · intro r req resp h
    rcases (call_one_some_iff r req resp).mp h with ⟨hn, rfl⟩
    exact ⟨specEntryResponse_exclusive r req,
      by rw [specEntryResponse_id]; exact hn,
      toJson_jsonrpc_field _⟩
  · intro r batch resp h
    rcases (mem_call_batch_iff r batch resp).mp h with ⟨q, hq, hn, rfl⟩
    exact ⟨specEntryResponse_exclusive r q,
      by rw [specEntryResponse_id]; exact hn,
      toJson_jsonrpc_field _⟩

/-- Witness for C7 at a concrete method-not-found response. -/
theorem response_invariant_witness :
    (((Response.mkError (.Number 1) Error.method_not_found).result.isSome
          = true
        ∧ (Response.mkError (.Number 1) Error.method_not_found).error = none)
      ∨ ((Response.mkError (.Number 1) Error.method_not_found).result = none
        ∧ (Response.mkError (.Number 1)
            Error.method_not_found).error.isSome = true))
    ∧ (Response.mkError (.Number 1)
        Error.method_not_found).id.is_notification = false
    ∧ (Response.mkError (.Number 1)
        Error.method_not_found).toJson.getField "jsonrpc"
      = some (.str "2.0") :=
  response_invariant.1 Registry.new ⟨.mk, "x", .null, .Number 1⟩ _ rfl

/-- C10: the explicit JSON `null` id is the distinct `Id::Null` variant,
not the absent-field `Notification` marker: it deserializes to `Id::Null`,
is not a notification, a request carrying it parses to a request with id
`Null`, a registered method answers it with a response (ok or error per
the handler outcome) whose id is `Null`, and that id serializes back as
JSON `null`. -/
theorem explicit_null_id_not_notification :
    Id.fromJson .null = some Id.Null
    ∧ Id.Null.is_notification = false
    ∧ Id.Null ≠ Id.Notification
    ∧ Id.Null.toJson = Json.null
    ∧ (∀ (m : String) (p : Json),
        parseRequest (.obj [("jsonrpc", .str "2.0"), ("method", .str m),
          ("params", p), ("id", .null)]) = some ⟨.mk, m, p, Id.Null⟩)
    ∧ ∀ (r : Registry) (h : Method) (req : Request),
        req.id = Id.Null → r.get_method req.method = some h →
        ((∀ v, h req.params = .ok v →
            r.call_one req = some (Response.ok Id.Null v))
         ∧ ∀ e, h req.params = .error e →
            r.call_one req = some (Response.mkError Id.Null e)) := by
  refine ⟨rfl, rfl, by decide, rfl, fun m p => ?_,
    fun r h req hid hm => ⟨fun v hv => ?_, fun e he => ?_⟩⟩
  · simp [parseRequest, assocLookup, Id.fromJson]
  · simp [Registry.call_one, hm, hv, hid, Id.is_notification]
  · simp [Registry.call_one, hm, he, hid, Id.is_notification]

/-- Witness for C10 at a concrete registered handler. -/
theorem explicit_null_id_witness :
    (Registry.new.register_method "m" fun _ =>
        Except.ok (Json.intNum 7)).call_one ⟨.mk, "m", .null, Id.Null⟩
      = some (Response.ok Id.Null (.intNum 7)) :=
  (explicit_null_id_not_notification.2.2.2.2.2
    (Registry.new.register_method "m" fun _ => Except.ok (Json.intNum 7))
    (fun _ => Except.ok (Json.intNum 7))
    ⟨.mk, "m", .null, Id.Null⟩ rfl rfl).1 (Json.intNum 7) rfl

end JsonRpcV2
